import Mathlib

/-!
# Verification of the fastapi-rag chat/document service

Shallow embedding of `app/services/chat_service.py` (the vector-store backed
`ChatService`) and the HTTP endpoint layer `app/api/v1/endpoints/chat.py`.

Modelling conventions:

* The Qdrant vector store is modelled as insertion-ordered association lists
  keyed by point id, one per collection ("chats" and "documents").  `upsert`
  replaces in place when the id exists and appends otherwise; `retrieve`
  looks up by id; `scroll limit` takes a prefix of the given length;
  `delete` filters ids out.  Embedding vectors carry no observable
  information for any claim and are omitted from payloads.
* Python `datetime` values are modelled as `Nat`.  `datetime.isoformat()`
  of a datetime `t` is modelled by the metadata value `PyVal.dtstr t`
  (an abstract well-formed ISO-8601 string); `datetime.fromisoformat`
  succeeds exactly on such values and fails (ValueError/TypeError) on any
  other string or non-string value.  Chat payload timestamps, which are
  written and read only by the service itself, are kept as `Nat` directly.
* Python dict values appearing in free-form document metadata are modelled
  by `PyVal`; dicts are insertion-ordered association lists with
  dict-update semantics (`dinsert` / `dmerge` model `{**a, **b}`).
* External calls (the chat engine, the embedding model, the query engine)
  are passed in as explicit parameters: the generation outcome of
  `chat_engine.chat` is an `Except String String`, the query engine is a
  function from `top_k` and query to an optional list of source nodes
  (`none` models a response object without a `source_nodes` attribute).
* Python exceptions are modelled with `Except String`; functions that
  mutate the store before possibly raising return the mutated store
  alongside the `Except` result, since a raised exception does not roll
  back external writes.
-/

/-- A Python value stored in free-form metadata dictionaries.
`dtstr t` is an abstract well-formed ISO-8601 datetime string denoting the
datetime `t`; `str s` is any other string; `pynone` is Python `None`. -/
inductive PyVal where
  | str (s : String)
  | int (n : Int)
  | dtstr (t : Nat)
  | pynone
deriving DecidableEq, Repr

/-- Python truthiness of an optional metadata value (`metadata.get(k)`):
a missing key or `None` is falsy, as are the empty string and `0`. -/
def truthyV : Option PyVal → Bool
  | none => false
  | some (.str s) => !s.isEmpty
  | some (.int n) => n != 0
  | some (.dtstr _) => true
  | some .pynone => false

/-- Model of `datetime.fromisoformat` applied to a metadata value:
succeeds exactly on well-formed ISO datetime strings, raises
ValueError on other strings and TypeError on non-strings (both are
modelled as `none`, matching the call sites that catch both). -/
def fromisoformatV : PyVal → Option Nat
  | .dtstr t => some t
  | _ => none

/-- An insertion-ordered association list modelling a keyed collection
(a Python dict, or a Qdrant collection keyed by point id). -/
abbrev KVList (α : Type) := List (String × α)

/-- True when the key is present (`k in d`). -/
def alContains {α : Type} (d : KVList α) (k : String) : Bool :=
  d.any (fun kv => kv.1 = k)

/-- Lookup (`d.get(k)` / Qdrant `retrieve` by a single id). -/
def alGet {α : Type} (d : KVList α) (k : String) : Option α :=
  (d.find? (fun kv => kv.1 = k)).map (·.2)

/-- Insert-or-replace: replaces the value in place when the key exists,
appends otherwise.  Models both `dict[k] = v` update order and Qdrant
`upsert` of a single point. -/
def alInsert {α : Type} (d : KVList α) (k : String) (v : α) : KVList α :=
  if alContains d k then d.map (fun kv => if kv.1 = k then (k, v) else kv)
  else d ++ [(k, v)]

/-- Dictionary merge `{**d1, **d2}`: keys of `d1` in order (values
overridden by `d2` where present), then new keys of `d2` in order. -/
def dmerge {α : Type} (d1 d2 : KVList α) : KVList α :=
  d2.foldl (fun acc kv => alInsert acc kv.1 kv.2) d1

/-- Well-formedness of a dict: pairwise distinct keys (every dict built by
Python has this). -/
def dwf {α : Type} (d : KVList α) : Prop :=
  (d.map (·.1)).Nodup

instance {α : Type} (d : KVList α) : Decidable (dwf d) := by
  unfold dwf; infer_instance

/-- Free-form document metadata. -/
abbrev DocMeta := KVList PyVal

/-- Model of `{k: v for k, v in metadata.items() if k not in ["id", "created_at"]}`. -/
def dfilterReserved (d : DocMeta) : DocMeta :=
  d.filter (fun kv => kv.1 != "id" && kv.1 != "created_at")

/-- A message record as stored inside a chat payload's `"messages"` list.
`created_at` is stored as `isoformat` of the datetime, which we keep as
the datetime itself (serialization is bijective on service-written data). -/
structure MsgRecord where
  id : String
  content : String
  role : String
  created_at : Nat
deriving DecidableEq, Repr

/-- The payload stored under a point of the `"chats"` collection, as
written by `create_chat` / `add_message`. -/
structure ChatPayload where
  title : String
  description : Option String
  created_at : Nat
  updated_at : Nat
  messages : List MsgRecord
deriving DecidableEq, Repr

/-- The payload stored under a point of the `"documents"` collection:
`{"text": ..., "metadata": ...}` (the embedding vector is omitted: no
observable behaviour depends on it). -/
structure DocPayload where
  text : String
  metadata : DocMeta
deriving DecidableEq, Repr

/-- The observable state of the Qdrant store: the two collections
initialised by `_init_collections`. -/
structure Store where
  chats : KVList ChatPayload
  documents : KVList DocPayload
deriving DecidableEq, Repr

/-- Model of `MessageCreate` (app/models/models.py). -/
structure MessageCreate where
  content : String
  role : String
  chat_id : String
deriving DecidableEq, Repr

/-- Model of `MessageRead` (app/models/models.py). -/
structure MessageRead where
  id : String
  content : String
  role : String
  chat_id : String
  created_at : Nat
deriving DecidableEq, Repr

/-- Model of `ChatRead` (app/models/models.py). -/
structure ChatRead where
  id : String
  title : String
  description : Option String
  created_at : Nat
  updated_at : Nat
deriving DecidableEq, Repr

/-- Model of `DocumentCreate` (app/models/models.py). -/
structure DocumentCreate where
  content : String
  metadata : DocMeta
deriving DecidableEq, Repr

/-- Model of `DocumentRead` (app/models/models.py).  `id` is kept as a `PyVal`
because `list_documents` / `search_similar_documents` read it back from
free-form metadata, where a caller override can make it non-string. -/
structure DocumentRead where
  id : PyVal
  content : String
  metadata : DocMeta
  created_at : Nat
deriving DecidableEq, Repr

/-- Result of an HTTP endpoint: a body, or an HTTPException with a
status code and detail string. -/
inductive HttpResult (α : Type) where
  | ok (body : α)
  | err (status : Nat) (detail : String)
deriving DecidableEq, Repr

/-- Qdrant `scroll(collection, limit)`: the first `limit` points in
storage order. -/
def scrollPoints {α : Type} (pts : KVList α) (limit : Nat) : KVList α :=
  pts.take limit

/-- Qdrant `delete(collection, points_selector=PointIdsList(points=ids))`:
removes the listed ids; a no-op (still a success) for absent ids. -/
def deletePoints {α : Type} (pts : KVList α) (ids : List String) : KVList α :=
  pts.filter (fun p => !ids.contains p.1)

/-- The non-deterministic inputs consumed by one `add_message` call:
the `uuid.uuid4()` / `datetime.utcnow()` values drawn at each call site,
and the outcome of the external `chat_engine.chat(...)` call
(`.error e` models the chat engine raising with message `e`). -/
structure GenEnv where
  message_id : String
  now : Nat
  ai_id : String
  ai_now : Nat
  upd_now : Nat
  gen : Except String String
  err_id : String
  err_now : Nat
deriving Repr

/-- Model of `ChatService.create_chat` (chat_service.py:98-130): stores the chat
payload with an empty message list under a fresh id and returns the
`ChatRead`.  `chat_id` and `now` stand for the drawn uuid / current time. -/
def create_chat (st : Store) (chat_id : String) (now : Nat)
    (title : String) (description : Option String) : Store × ChatRead :=
  let payload : ChatPayload :=
    { title := title, description := description,
      created_at := now, updated_at := now, messages := [] }
  ({ st with chats := alInsert st.chats chat_id payload },
   { id := chat_id, title := title, description := description,
     created_at := now, updated_at := now })

/-- Model of `ChatService.list_chats` (chat_service.py:132-150): scrolls the
`"chats"` collection with `limit=100` and rebuilds a `ChatRead` per point. -/
def list_chats (st : Store) : List ChatRead :=
  (scrollPoints st.chats 100).map (fun p =>
    { id := p.1, title := p.2.title, description := p.2.description,
      created_at := p.2.created_at, updated_at := p.2.updated_at })

/-- Model of `ChatService.get_chat_messages` (chat_service.py:152-170): retrieves
the chat point; when the response is empty (unknown id) returns `[]`,
otherwise maps the payload's message list in storage order. -/
def get_chat_messages (st : Store) (chat_id : String) : List MessageRead :=
  match alGet st.chats chat_id with
  | none => []
  | some p => p.messages.map (fun m =>
      { id := m.id, content := m.content, role := m.role,
        chat_id := chat_id, created_at := m.created_at })

/-- Model of `ChatService.add_message` (chat_service.py:172-249).  Returns the
store after the call together with the result (`.error` models the
`ValueError("Chat not found")`).  On the generation-success path the
payload is written back with the user and assistant records appended; on
the generation-failure path the `Error:`-prefixed assistant record is
appended only to the local `messages` list, which is then discarded —
the `upsert` sits inside the `try`, so nothing is persisted there. -/
def add_message (st : Store) (env : GenEnv) (message : MessageCreate) :
    Store × Except String MessageRead :=
  match alGet st.chats message.chat_id with
  | none => (st, .error "Chat not found")
  | some chat =>
    let new_message : MsgRecord :=
      { id := env.message_id, content := message.content,
        role := message.role, created_at := env.now }
    let messages1 := chat.messages ++ [new_message]
    let user_read : MessageRead :=
      { id := env.message_id, content := message.content,
        role := message.role, chat_id := message.chat_id,
        created_at := env.now }
    match env.gen with
    | .ok resp =>
      let ai_message : MsgRecord :=
        { id := env.ai_id, content := resp, role := "assistant",
          created_at := env.ai_now }
      let payload' : ChatPayload :=
        { chat with messages := messages1 ++ [ai_message],
                    updated_at := env.upd_now }
      ({ st with chats := alInsert st.chats message.chat_id payload' },
       .ok user_read)
    | .error e =>
      -- `except` branch: the error record joins only the local list
      -- `messages1`, which is dropped; the store is left untouched.
      let error_message : MsgRecord :=
        { id := env.err_id, content := "Error: " ++ e, role := "assistant",
          created_at := env.err_now }
      let _discarded := messages1 ++ [error_message]
      (st, .ok user_read)

/-- Model of `ChatService.add_document` (chat_service.py:255-304): synthesizes
id/created_at, merges `{**reserved, **caller}`, upserts the payload under
the synthesized point id, and returns a `DocumentRead` carrying the
caller-supplied metadata unchanged.  The LlamaIndex insert and the
embedding call touch no state any claim observes and are omitted. -/
def add_document (st : Store) (doc_id : String) (now : Nat)
    (document : DocumentCreate) : Store × DocumentRead :=
  let metadata : DocMeta :=
    dmerge [("id", PyVal.str doc_id), ("created_at", PyVal.dtstr now)]
      document.metadata
  let payload : DocPayload := { text := document.content, metadata := metadata }
  ({ st with documents := alInsert st.documents doc_id payload },
   { id := PyVal.str doc_id, content := document.content,
     metadata := document.metadata, created_at := now })

/-- One step of `list_documents`'s reconstruction loop
(chat_service.py:318-342): reads `metadata["id"]` / `metadata["created_at"]`,
requires both truthy, parses the timestamp (skipping the record on
ValueError/TypeError), and strips the reserved keys from the returned
metadata. -/
def readDocPoint (p : String × DocPayload) : Option DocumentRead :=
  let metadata := p.2.metadata
  let doc_id := alGet metadata "id"
  let created_at_v := alGet metadata "created_at"
  if truthyV doc_id && truthyV created_at_v then
    match doc_id, created_at_v.bind fromisoformatV with
    | some did, some t =>
      some { id := did, content := p.2.text,
             metadata := dfilterReserved metadata, created_at := t }
    | _, _ => none
  else none

/-- Model of `ChatService.list_documents` (chat_service.py:306-346): scrolls the
`"documents"` collection with `limit=100` and reconstructs each record,
silently skipping malformed ones. -/
def list_documents (st : Store) : List DocumentRead :=
  (scrollPoints st.documents 100).filterMap readDocPoint

/-- The fixed `similarity_top_k` passed to `index.as_query_engine`
(chat_service.py:351). -/
def searchTopK : Nat := 5

/-- A source node of a query response: `node.text` and `node.metadata`. -/
structure SourceNode where
  text : String
  metadata : DocMeta
deriving DecidableEq, Repr

/-- The per-node body of `search_similar_documents`'s loop
(chat_service.py:356-372): nodes missing an `"id"` or `"created_at"` key
are skipped; a node whose `"created_at"` fails `datetime.fromisoformat`
raises, which the enclosing handler turns into a `ValueError` (`.error`).
-/
def searchNode (n : SourceNode) : Except String (Option DocumentRead) :=
  match alGet n.metadata "id", alGet n.metadata "created_at" with
  | some did, some cav =>
    match fromisoformatV cav with
    | some t =>
      .ok (some { id := did, content := n.text,
                  metadata := dfilterReserved n.metadata, created_at := t })
    | none => .error "Failed to search documents"
  | _, _ => .ok none

/-- Folds `searchNode` over the response's source nodes in order,
propagating the first failure. -/
def collectNodes : List SourceNode → Except String (List DocumentRead)
  | [] => .ok []
  | n :: rest =>
    match searchNode n with
    | .error e => .error e
    | .ok h =>
      match collectNodes rest with
      | .error e => .error e
      | .ok t => .ok (match h with | some d => d :: t | none => t)

/-- Model of `ChatService.search_similar_documents` (chat_service.py:348-375).
`engine k q` is the external query engine's response for a top-`k`
similarity query (`none` models a response without a `source_nodes`
attribute, in which case the accumulated list stays empty). -/
def search_similar_documents
    (engine : Nat → String → Option (List SourceNode)) (query : String) :
    Except String (List DocumentRead) :=
  match engine searchTopK query with
  | none => .ok []
  | some nodes => collectNodes nodes

/-- Model of `ChatService.delete_document` (chat_service.py:377-393): deletes the
id from the `"documents"` collection — a success whether or not the id
existed — and returns `true`. -/
def delete_document (st : Store) (doc_id : String) : Store × Bool :=
  ({ st with documents := deletePoints st.documents [doc_id] }, true)

/-- Model of `ChatService.update_document` (chat_service.py:395-453).  Fails when
the id is absent (the inner `ValueError` is re-wrapped by the handler).
Otherwise merges `{"id", "created_at": old, **caller}`, overwrites the
stored payload, and rebuilds the returned record with
`datetime.fromisoformat(created_at_str)` — which, failing, raises *after*
the upsert already happened, so the error result carries the mutated
store. -/
def update_document (st : Store) (doc_id : String)
    (document : DocumentCreate) : Store × Except String DocumentRead :=
  match alGet st.documents doc_id with
  | none =>
    (st, .error ("Failed to update document: Document with ID " ++ doc_id
                  ++ " not found"))
  | some payload =>
    let existing_metadata := payload.metadata
    let created_at_v :=
      (alGet existing_metadata "created_at").getD PyVal.pynone
    let metadata : DocMeta :=
      dmerge [("id", PyVal.str doc_id), ("created_at", created_at_v)]
        document.metadata
    let payload' : DocPayload :=
      { text := document.content, metadata := metadata }
    let st' : Store :=
      { st with documents := alInsert st.documents doc_id payload' }
    match fromisoformatV created_at_v with
    | some t =>
      (st', .ok { id := PyVal.str doc_id, content := document.content,
                  metadata := document.metadata, created_at := t })
    | none => (st', .error "Failed to update document: invalid created_at")

/-- Endpoint `GET /chats/{chat_id}/messages/` (chat.py:36-42): any
exception becomes a 404; the service call raises nothing observable, so
the endpoint always answers 200 with the service's list. -/
def get_chat_messages_endpoint (st : Store) (chat_id : String) :
    HttpResult (List MessageRead) :=
  HttpResult.ok (get_chat_messages st chat_id)

/-- Endpoint `DELETE /documents/{doc_id}` (chat.py:85-96): answers the
success message when the service returns `true`, 404 otherwise. -/
def delete_document_endpoint (st : Store) (doc_id : String) :
    Store × HttpResult String :=
  let res := delete_document st doc_id
  if res.2 then (res.1, HttpResult.ok "Document deleted successfully")
  else (res.1, HttpResult.err 404 "Document not found")

/-! ## Concrete sample data used by witnesses and counterexamples -/

/-- The store right after `_init_collections`: both collections empty. -/
def emptyStore : Store := { chats := [], documents := [] }

/-- A chat payload with one stored user message. -/
def sampleChatPayload : ChatPayload :=
  { title := "t", description := some "about rag", created_at := 10,
    updated_at := 11,
    messages := [{ id := "m0", content := "hello", role := "user",
                   created_at := 12 }] }

/-- A store holding the single chat `"c1"`. -/
def sampleChatStore : Store :=
  { chats := [("c1", sampleChatPayload)], documents := [] }

/-- Call-site draws for an `add_message` call whose generation succeeds. -/
def envOk : GenEnv :=
  { message_id := "m1", now := 20, ai_id := "a1", ai_now := 21,
    upd_now := 22, gen := .ok "reply", err_id := "e1", err_now := 23 }

/-- Call-site draws for an `add_message` call whose chat engine raises. -/
def envFail : GenEnv := { envOk with gen := .error "boom" }

/-- A store with one document added the ordinary way (no reserved keys in
the caller metadata). -/
def sampleDocStore : Store :=
  (add_document emptyStore "d1" 5
    { content := "txt", metadata := [("k", PyVal.str "v")] }).1

/-- A store with 101 chats, exceeding the fixed scroll page size. -/
def manyChatsStore : Store :=
  { chats := (List.range 101).map (fun i => (toString i, sampleChatPayload)),
    documents := [] }

/-- A query engine whose response has no `source_nodes`. -/
def engNone : Nat → String → Option (List SourceNode) := fun _ _ => none

/-- A well-formed source node. -/
def node1 : SourceNode :=
  { text := "body",
    metadata := [("id", PyVal.str "n1"), ("created_at", PyVal.dtstr 3),
                 ("tag", PyVal.int 7)] }

/-- A query engine returning the single node `node1`. -/
def engOne : Nat → String → Option (List SourceNode) := fun _ _ => some [node1]

/-- The document record reconstructed from `node1`. -/
def docR1 : DocumentRead :=
  { id := PyVal.str "n1", content := "body",
    metadata := [("tag", PyVal.int 7)], created_at := 3 }

/-! ## Association-list lemmas -/

theorem alGet_cons {α : Type} (a : String × α) (d : KVList α) (k : String) :
    alGet (a :: d) k = if a.1 = k then some a.2 else alGet d k := by
  by_cases h : a.1 = k
  · simp [alGet, List.find?_cons_of_pos, h]
  · simp [alGet, List.find?_cons_of_neg, h]

theorem alContains_cons {α : Type} (a : String × α) (d : KVList α)
    (k : String) :
    alContains (a :: d) k = (decide (a.1 = k) || alContains d k) := by
  simp [alContains]

theorem alContains_eq_false_iff {α : Type} (d : KVList α) (k : String) :
    alContains d k = false ↔ ∀ kv ∈ d, kv.1 ≠ k := by
  simp [alContains]

theorem alContains_eq_true_iff {α : Type} (d : KVList α) (k : String) :
    alContains d k = true ↔ ∃ kv ∈ d, kv.1 = k := by
  simp [alContains]

theorem alContains_append {α : Type} (d e : KVList α) (k : String) :
    alContains (d ++ e) k = (alContains d k || alContains e k) := by
  simp [alContains]

theorem alGet_of_not_contains {α : Type} {d : KVList α} {k : String}
    (h : alContains d k = false) : alGet d k = none := by
  induction d with
  | nil => rfl
  | cons a d ih =>
    rw [alContains_cons, Bool.or_eq_false_iff] at h
    rw [alGet_cons, if_neg (by simpa using h.1)]
    exact ih h.2

theorem alGet_append {α : Type} (d e : KVList α) (k : String) :
    alGet (d ++ e) k =
      match alGet d k with
      | some v => some v
      | none => alGet e k := by
  induction d with
  | nil => rfl
  | cons a d ih =>
    by_cases h : a.1 = k
    · simp [List.cons_append, alGet_cons, h]
    · simpa [List.cons_append, alGet_cons, h] using ih

theorem alGet_map_replace {α : Type} {d : KVList α} {k : String} (v : α)
    (h : alContains d k = true) :
    alGet (d.map (fun kv => if kv.1 = k then (k, v) else kv)) k = some v := by
  induction d with
  | nil => simp [alContains] at h
  | cons a d ih =>
    by_cases ha : a.1 = k
    · simp [List.map_cons, ha, alGet_cons]
    · rw [alContains_cons, Bool.or_eq_true] at h
      rcases h with h | h
      · exact absurd (by simpa using h) ha
      · simpa [List.map_cons, ha, alGet_cons] using ih h

theorem alGet_alInsert_self {α : Type} (d : KVList α) (k : String) (v : α) :
    alGet (alInsert d k v) k = some v := by
  by_cases h : alContains d k
  · rw [alInsert, if_pos h]
    exact alGet_map_replace v h
  · rw [alInsert, if_neg h, alGet_append,
      alGet_of_not_contains (Bool.eq_false_iff.mpr h)]
    simp [alGet_cons]

theorem alGet_alInsert_other {α : Type} (d : KVList α) (k : String) (v : α)
    {k' : String} (hne : k' ≠ k) :
    alGet (alInsert d k v) k' = alGet d k' := by
  by_cases h : alContains d k
  · rw [alInsert, if_pos h]
    clear h
    induction d with
    | nil => rfl
    | cons a d ih =>
      by_cases ha : a.1 = k
      · rw [List.map_cons, if_pos ha, alGet_cons, alGet_cons, ha,
          if_neg (fun hk => hne hk.symm), if_neg (fun hk => hne hk.symm)]
        exact ih
      · rw [List.map_cons, if_neg ha, alGet_cons, alGet_cons]
        by_cases hk' : a.1 = k'
        · simp [hk']
        · rw [if_neg hk', if_neg hk']
          exact ih
  · rw [alInsert, if_neg h, alGet_append]
    cases hd : alGet d k' with
    | some v' => rfl
    | none => simp [alGet_cons, alGet, Ne.symm hne]

theorem alInsert_of_not_contains {α : Type} {d : KVList α} {k : String}
    (v : α) (h : alContains d k = false) : alInsert d k v = d ++ [(k, v)] := by
  rw [alInsert, if_neg (by simp [h])]

theorem dwf_cons {α : Type} {a : String × α} {d : KVList α}
    (h : dwf (a :: d)) : a.1 ∉ d.map (·.1) ∧ dwf d := by
  rw [dwf, List.map_cons, List.nodup_cons] at h
  exact h

theorem mem_keys_of_contains {α : Type} {d : KVList α} {k : String}
    (h : alContains d k = true) : k ∈ d.map (·.1) := by
  rcases (alContains_eq_true_iff d k).mp h with ⟨kv, hkv, hk⟩
  exact hk ▸ List.mem_map_of_mem _ hkv

/-- Merging `{**d1, **d2}` with fresh, duplicate-free keys in `d2` is plain
concatenation. -/
theorem dmerge_append {α : Type} (d1 d2 : KVList α)
    (hdisj : ∀ kv ∈ d2, alContains d1 kv.1 = false) (hwf : dwf d2) :
    dmerge d1 d2 = d1 ++ d2 := by
  induction d2 generalizing d1 with
  | nil => simp [dmerge]
  | cons a d2 ih =>
    obtain ⟨hnotin, hwf2⟩ := dwf_cons hwf
    have hstep : dmerge d1 (a :: d2) = dmerge (alInsert d1 a.1 a.2) d2 := rfl
    rw [hstep, alInsert_of_not_contains _ (hdisj a (List.mem_cons_self a d2))]
    rw [ih (d1 ++ [(a.1, a.2)]) ?_ hwf2]
    · simp
    · intro kv hkv
      rw [alContains_append, Bool.or_eq_false_iff]
      refine ⟨hdisj kv (List.mem_cons_of_mem a hkv), ?_⟩
      have : kv.1 ≠ a.1 := fun hk =>
        hnotin (hk ▸ List.mem_map_of_mem _ hkv)
      simp [alContains, Ne.symm this]

/-- Lookup through a merge: keys of `d2` win; other keys fall through. -/
theorem alGet_dmerge {α : Type} (d1 d2 : KVList α) (k : String)
    (hwf : dwf d2) :
    alGet (dmerge d1 d2) k =
      if alContains d2 k then alGet d2 k else alGet d1 k := by
  induction d2 generalizing d1 with
  | nil => simp [dmerge, alContains]
  | cons a d2 ih =>
    obtain ⟨hnotin, hwf2⟩ := dwf_cons hwf
    have hstep : dmerge d1 (a :: d2) = dmerge (alInsert d1 a.1 a.2) d2 := rfl
    rw [hstep, ih (alInsert d1 a.1 a.2) hwf2]
    by_cases hk2 : alContains d2 k
    · have hak : a.1 ≠ k := fun hk =>
        hnotin (hk ▸ mem_keys_of_contains hk2)
      rw [if_pos hk2, alContains_cons, alGet_cons, if_neg hak]
      simp [hk2]
    · rw [if_neg hk2]
      by_cases hak : a.1 = k
      · rw [hak, alGet_alInsert_self, alContains_cons, alGet_cons]
        simp [hak]
      · rw [alGet_alInsert_other _ _ _ (fun hk => hak hk.symm),
          alContains_cons, alGet_cons, if_neg hak]
        simp [hak, hk2]

theorem dfilterReserved_no_id (d : DocMeta) :
    alContains (dfilterReserved d) "id" = false := by
  rw [alContains_eq_false_iff]
  intro kv hkv
  have := (List.mem_filter.mp hkv).2
  simp only [Bool.and_eq_true, bne_iff_ne, ne_eq] at this
  exact this.1

theorem dfilterReserved_no_created_at (d : DocMeta) :
    alContains (dfilterReserved d) "created_at" = false := by
  rw [alContains_eq_false_iff]
  intro kv hkv
  have := (List.mem_filter.mp hkv).2
  simp only [Bool.and_eq_true, bne_iff_ne, ne_eq] at this
  exact this.2

theorem dfilterReserved_eq_self {d : DocMeta}
    (hid : alContains d "id" = false)
    (hca : alContains d "created_at" = false) : dfilterReserved d = d := by
  rw [dfilterReserved, List.filter_eq_self]
  intro kv hkv
  have h1 := (alContains_eq_false_iff d "id").mp hid kv hkv
  have h2 := (alContains_eq_false_iff d "created_at").mp hca kv hkv
  simp [h1, h2]

/-! ## Claim theorems -/

/-- Claim C1 (code bug): at a concrete existing chat whose generation
step raises, `add_message` completes normally returning the user message
— but the store is left byte-for-byte unchanged: the stored message list
does not grow at all (it still holds only the one pre-existing message),
and no `Error:`-prefixed assistant record is persisted.  The error record
is appended only to a local list that the `except` branch then discards,
because the `upsert` sits inside the `try` before the failure point
(chat_service.py:220-241). -/
theorem add_message_genfail_leaves_store_unchanged :
    add_message sampleChatStore envFail
        { content := "hi", role := "user", chat_id := "c1" } =
      (sampleChatStore,
       Except.ok { id := "m1", content := "hi", role := "user",
                   chat_id := "c1", created_at := 20 }) ∧
    get_chat_messages sampleChatStore "c1" =
      [{ id := "m0", content := "hello", role := "user", chat_id := "c1",
         created_at := 12 }] :=
  ⟨rfl, rfl⟩

/-- Claim C2 (counterexample): on a chat id that resolves to nothing,
`get_chat_messages` does not fail with NotFound — the service returns an
empty list and the endpoint answers 200 with `[]`
(chat_service.py:156-157). -/
theorem get_chat_messages_unknown_not_404 :
    get_chat_messages emptyStore "nope" = [] ∧
    get_chat_messages_endpoint emptyStore "nope" = HttpResult.ok [] ∧
    get_chat_messages_endpoint emptyStore "nope" ≠
      HttpResult.err 404 "Chat not found" :=
  ⟨rfl, rfl, by simp [get_chat_messages_endpoint]⟩

/-- Claim C2 (amended): `get_chat_messages` returns the empty sequence
when the chat id does not resolve (rather than failing with NotFound),
and for a known chat returns exactly its stored messages in storage
(insertion) order. -/
theorem get_chat_messages_empty_or_ordered (st : Store) (cid : String) :
    (alGet st.chats cid = none → get_chat_messages st cid = []) ∧
    (∀ p, alGet st.chats cid = some p →
      get_chat_messages st cid = p.messages.map (fun m =>
        { id := m.id, content := m.content, role := m.role, chat_id := cid,
          created_at := m.created_at })) := by
  constructor
  · intro h
    simp only [get_chat_messages, h]
  · intro p h
    simp only [get_chat_messages, h]

/-- Witness for C2's amended theorem at concrete stores: an unknown id
yields `[]`; the known chat `"c1"` yields its one stored message. -/
theorem get_chat_messages_empty_or_ordered_witness :
    get_chat_messages sampleChatStore "zzz" = [] ∧
    get_chat_messages sampleChatStore "c1" =
      [{ id := "m0", content := "hello", role := "user", chat_id := "c1",
         created_at := 12 }] :=
  ⟨(get_chat_messages_empty_or_ordered sampleChatStore "zzz").1 rfl,
   ((get_chat_messages_empty_or_ordered sampleChatStore "c1").2
      sampleChatPayload rfl).trans rfl⟩

/-- Claim C3: for every store and id — whether or not a document with
that id exists — `delete_document` returns `true`, and the HTTP DELETE
endpoint answers the success message; its 404-if-missing branch can never
fire from the success path (chat_service.py:377-393, chat.py:85-96). -/
theorem delete_document_always_succeeds (st : Store) (doc_id : String) :
    (delete_document st doc_id).2 = true ∧
    delete_document st doc_id =
      ({ st with documents := deletePoints st.documents [doc_id] }, true) ∧
    delete_document_endpoint st doc_id =
      ({ st with documents := deletePoints st.documents [doc_id] },
       HttpResult.ok "Document deleted successfully") :=
  ⟨rfl, rfl, rfl⟩

/-- Claim C8: `list_chats` and `list_documents` each return at most 100
records (the fixed `limit=100` scroll bound), and a store holding more
than 100 chats has the excess silently omitted: exactly 100 records come
back (chat_service.py:134-137, 310-315). -/
theorem list_bounded_at_100 (st : Store) :
    (list_chats st).length ≤ 100 ∧
    (list_documents st).length ≤ 100 ∧
    (100 < st.chats.length → (list_chats st).length = 100) := by
  refine ⟨?_, ?_, ?_⟩
  · rw [list_chats, List.length_map, scrollPoints, List.length_take]
    exact min_le_left _ _
  · calc (list_documents st).length
        ≤ (scrollPoints st.documents 100).length :=
          List.length_filterMap_le _ _
      _ ≤ 100 := by
          rw [scrollPoints, List.length_take]; exact min_le_left _ _
  · intro h
    rw [list_chats, List.length_map, scrollPoints, List.length_take]
    exact min_eq_left (le_of_lt h)

/-- Witness for C8 at a store of 101 chats: exactly 100 records are
returned. -/
theorem list_bounded_at_100_witness :
    (list_chats manyChatsStore).length ≤ 100 ∧
    (list_documents manyChatsStore).length ≤ 100 ∧
    (list_chats manyChatsStore).length = 100 :=
  ⟨(list_bounded_at_100 manyChatsStore).1,
   (list_bounded_at_100 manyChatsStore).2.1,
   (list_bounded_at_100 manyChatsStore).2.2 (by
      simp [manyChatsStore])⟩

/-- Claim C9: on the generation-success path of `add_message`, the chat
payload written back is the prior payload with only `messages` and
`updated_at` changed — `title`, `description` and `created_at` are
carried over verbatim by the `{**chat.payload, ...}` spread
(chat_service.py:226-230). -/
theorem add_message_preserves_chat_fields (st : Store) (env : GenEnv)
    (msg : MessageCreate) (chat : ChatPayload) (resp : String)
    (hget : alGet st.chats msg.chat_id = some chat)
    (hgen : env.gen = .ok resp) :
    alGet (add_message st env msg).1.chats msg.chat_id =
      some { chat with
              messages := chat.messages ++
                [{ id := env.message_id, content := msg.content,
                   role := msg.role, created_at := env.now },
                 { id := env.ai_id, content := resp, role := "assistant",
                   created_at := env.ai_now }],
              updated_at := env.upd_now } := by
  simp only [add_message, hget, hgen]
  rw [alGet_alInsert_self]
  simp [List.append_assoc]

/-- Witness for C9 at the concrete chat `"c1"`: the written-back payload
keeps title `"t"`, the description and `created_at := 10`. -/
theorem add_message_preserves_chat_fields_witness :
    alGet (add_message sampleChatStore envOk
        { content := "hi", role := "user", chat_id := "c1" }).1.chats "c1" =
      some { sampleChatPayload with
              messages := sampleChatPayload.messages ++
                [{ id := "m1", content := "hi", role := "user",
                   created_at := 20 },
                 { id := "a1", content := "reply", role := "assistant",
                   created_at := 21 }],
              updated_at := 22 } :=
  add_message_preserves_chat_fields sampleChatStore envOk
    { content := "hi", role := "user", chat_id := "c1" }
    sampleChatPayload "reply" rfl rfl

/-- Claim C6: whenever the chat exists, `add_message` returns the user
message record — id, content, role, chat id and timestamp all taken from
the appended user message, on the success and the failure branch alike —
and on the success branch the generated assistant reply only shows up at
the end of a subsequent `get_chat_messages` (chat_service.py:243-249). -/
theorem add_message_returns_user_message (st : Store) (env : GenEnv)
    (msg : MessageCreate) (chat : ChatPayload)
    (hget : alGet st.chats msg.chat_id = some chat) :
    (add_message st env msg).2 =
      Except.ok { id := env.message_id, content := msg.content,
                  role := msg.role, chat_id := msg.chat_id,
                  created_at := env.now } ∧
    (∀ resp, env.gen = .ok resp →
      get_chat_messages (add_message st env msg).1 msg.chat_id =
        get_chat_messages st msg.chat_id ++
          [{ id := env.message_id, content := msg.content, role := msg.role,
             chat_id := msg.chat_id, created_at := env.now },
           { id := env.ai_id, content := resp, role := "assistant",
             chat_id := msg.chat_id, created_at := env.ai_now }]) := by
  constructor
  · cases hgen : env.gen with
    | ok resp => simp only [add_message, hget, hgen]
    | error e => simp only [add_message, hget, hgen]
  · intro resp hgen
    simp only [add_message, hget, hgen, get_chat_messages]
    rw [alGet_alInsert_self]
    simp

/-- Witness for C6 at the concrete chat `"c1"`: the call returns the user
record `m1`, and reading the chat back afterwards shows the old message
followed by the user message and the assistant reply. -/
theorem add_message_returns_user_message_witness :
    (add_message sampleChatStore envOk
        { content := "hi", role := "user", chat_id := "c1" }).2 =
      Except.ok { id := "m1", content := "hi", role := "user",
                  chat_id := "c1", created_at := 20 } ∧
    get_chat_messages (add_message sampleChatStore envOk
        { content := "hi", role := "user", chat_id := "c1" }).1 "c1" =
      get_chat_messages sampleChatStore "c1" ++
        [{ id := "m1", content := "hi", role := "user", chat_id := "c1",
           created_at := 20 },
         { id := "a1", content := "reply", role := "assistant",
           chat_id := "c1", created_at := 21 }] :=
  ⟨(add_message_returns_user_message sampleChatStore envOk
      { content := "hi", role := "user", chat_id := "c1" }
      sampleChatPayload rfl).1,
   (add_message_returns_user_message sampleChatStore envOk
      { content := "hi", role := "user", chat_id := "c1" }
      sampleChatPayload rfl).2 "reply" rfl⟩

theorem contains_of_alGet_some {α : Type} {d : KVList α} {k : String}
    {v : α} (h : alGet d k = some v) : alContains d k = true := by
  by_cases hc : alContains d k
  · exact hc
  · rw [alGet_of_not_contains (Bool.eq_false_iff.mpr hc)] at h
    exact absurd h (by simp)

/-- Claim C10: `add_document` / `update_document` build the stored
metadata as `{"id": ..., "created_at": ..., **caller}` — synthesized
pairs first, caller pairs last — so a caller key `"id"`/`"created_at"`
overrides the synthesized id / preserved created_at in the stored
payload, while the vector-store point itself stays keyed by the
synthesized/original id; only a caller dict free of those keys leaves the
stored metadata id equal to the record id (chat_service.py:261-266,
410-415). -/
theorem metadata_merge_caller_overrides (st : Store) (doc_id : String)
    (now : Nat) (doc : DocumentCreate) (hwf : dwf doc.metadata) :
    alGet (add_document st doc_id now doc).1.documents doc_id =
      some { text := doc.content,
             metadata := dmerge
               [("id", PyVal.str doc_id), ("created_at", PyVal.dtstr now)]
               doc.metadata } ∧
    (∀ v, alGet doc.metadata "id" = some v →
      alGet (dmerge [("id", PyVal.str doc_id),
        ("created_at", PyVal.dtstr now)] doc.metadata) "id" = some v) ∧
    (∀ v, alGet doc.metadata "created_at" = some v →
      alGet (dmerge [("id", PyVal.str doc_id),
        ("created_at", PyVal.dtstr now)] doc.metadata) "created_at" =
        some v) ∧
    (alContains doc.metadata "id" = false →
      alGet (dmerge [("id", PyVal.str doc_id),
        ("created_at", PyVal.dtstr now)] doc.metadata) "id" =
        some (PyVal.str doc_id)) ∧
    (alContains doc.metadata "created_at" = false →
      alGet (dmerge [("id", PyVal.str doc_id),
        ("created_at", PyVal.dtstr now)] doc.metadata) "created_at" =
        some (PyVal.dtstr now)) ∧
    (∀ pay, alGet st.documents doc_id = some pay →
      alGet (update_document st doc_id doc).1.documents doc_id =
        some { text := doc.content,
               metadata := dmerge
                 [("id", PyVal.str doc_id),
                  ("created_at",
                   (alGet pay.metadata "created_at").getD PyVal.pynone)]
                 doc.metadata }) := by
  refine ⟨?_, ?_, ?_, ?_, ?_, ?_⟩
  · simp only [add_document]
    exact alGet_alInsert_self ..
  · intro v hv
    rw [alGet_dmerge _ _ _ hwf, if_pos (contains_of_alGet_some hv)]
    exact hv
  · intro v hv
    rw [alGet_dmerge _ _ _ hwf, if_pos (contains_of_alGet_some hv)]
    exact hv
  · intro hc
    rw [alGet_dmerge _ _ _ hwf, if_neg (by simp [hc])]
    rfl
  · intro hc
    rw [alGet_dmerge _ _ _ hwf, if_neg (by simp [hc])]
    rfl
  · intro pay hpay
    simp only [update_document, hpay]
    cases hfi : fromisoformatV ((alGet pay.metadata "created_at").getD
        PyVal.pynone) with
    | some t => simp only []; exact alGet_alInsert_self ..
    | none => simp only []; exact alGet_alInsert_self ..

/-- Witness for C10: a caller `"id"` key hijacks the stored metadata id
(`"HJ"` rather than the synthesized `"d9"`), while a reserved-free caller
dict leaves the synthesized id in place; the point stays stored under the
synthesized id in both cases. -/
theorem metadata_merge_caller_overrides_witness :
    alGet (dmerge [("id", PyVal.str "d9"), ("created_at", PyVal.dtstr 7)]
        [("id", PyVal.str "HJ")]) "id" = some (PyVal.str "HJ") ∧
    alGet (dmerge [("id", PyVal.str "d8"), ("created_at", PyVal.dtstr 8)]
        [("k", PyVal.str "v")]) "id" = some (PyVal.str "d8") ∧
    alGet (add_document emptyStore "d9" 7
        { content := "c", metadata := [("id", PyVal.str "HJ")] }
      ).1.documents "d9" =
      some { text := "c",
             metadata := dmerge
               [("id", PyVal.str "d9"), ("created_at", PyVal.dtstr 7)]
               [("id", PyVal.str "HJ")] } :=
  ⟨(metadata_merge_caller_overrides emptyStore "d9" 7
      { content := "c", metadata := [("id", PyVal.str "HJ")] }
      (by decide)).2.1 (PyVal.str "HJ") rfl,
   (metadata_merge_caller_overrides emptyStore "d8" 8
      { content := "c", metadata := [("k", PyVal.str "v")] }
      (by decide)).2.2.2.1 rfl,
   (metadata_merge_caller_overrides emptyStore "d9" 7
      { content := "c", metadata := [("id", PyVal.str "HJ")] }
      (by decide)).1⟩


theorem readDocPoint_reserved_free {p : String × DocPayload}
    {d : DocumentRead} (h : readDocPoint p = some d) :
    alContains d.metadata "id" = false ∧
    alContains d.metadata "created_at" = false := by
  simp only [readDocPoint] at h
  split at h
  · split at h
    · rw [Option.some_inj] at h
      subst h
      exact ⟨dfilterReserved_no_id _, dfilterReserved_no_created_at _⟩
    · exact absurd h (by simp)
  · exact absurd h (by simp)

theorem list_documents_reserved_free (st : Store) :
    ∀ d ∈ list_documents st, alContains d.metadata "id" = false ∧
      alContains d.metadata "created_at" = false := by
  intro d hd
  rw [list_documents, List.mem_filterMap] at hd
  obtain ⟨p, _, hp⟩ := hd
  exact readDocPoint_reserved_free hp

/-- Claim C4 (counterexample): adding a document whose caller metadata
carries the reserved key `"created_at"` (with a non-timestamp value)
succeeds, but the immediately following `list_documents` contains no
record at all — the caller value overrode the synthesized timestamp and
the reconstruction skips the unparseable record — and the metadata
handed back by `add_document` still contains the reserved key. -/
theorem add_then_list_reserved_key_counterexample :
    list_documents (add_document emptyStore "d1" 5
      { content := "txt",
        metadata := [("created_at", PyVal.str "garbage")] }).1 = [] ∧
    (add_document emptyStore "d1" 5
      { content := "txt",
        metadata := [("created_at", PyVal.str "garbage")] }).2.metadata =
      [("created_at", PyVal.str "garbage")] :=
  ⟨rfl, rfl⟩

/-- Claim C4 (amended): for a fresh nonempty synthesized id, a store
holding fewer than 100 documents, and caller metadata with distinct keys
containing neither `"id"` nor `"created_at"`, adding a document and
immediately listing documents includes a record with that id, identical
content, and exactly the caller-supplied metadata; and every record
`list_documents` ever returns is free of the reserved keys. -/
theorem add_then_list_roundtrip (st : Store) (doc_id : String) (now : Nat)
    (doc : DocumentCreate)
    (hne : doc_id ≠ "")
    (hfresh : alContains st.documents doc_id = false)
    (hlen : st.documents.length < 100)
    (hwf : dwf doc.metadata)
    (hmid : alContains doc.metadata "id" = false)
    (hmca : alContains doc.metadata "created_at" = false) :
    ({ id := PyVal.str doc_id, content := doc.content,
       metadata := doc.metadata, created_at := now } : DocumentRead) ∈
      list_documents (add_document st doc_id now doc).1 ∧
    (add_document st doc_id now doc).2 =
      { id := PyVal.str doc_id, content := doc.content,
        metadata := doc.metadata, created_at := now } ∧
    (∀ d ∈ list_documents (add_document st doc_id now doc).1,
      alContains d.metadata "id" = false ∧
      alContains d.metadata "created_at" = false) := by
  have hdisj : ∀ kv ∈ doc.metadata,
      alContains [("id", PyVal.str doc_id),
        ("created_at", PyVal.dtstr now)] kv.1 = false := by
    intro kv hkv
    have h1 := (alContains_eq_false_iff _ _).mp hmid kv hkv
    have h2 := (alContains_eq_false_iff _ _).mp hmca kv hkv
    simp [alContains, Ne.symm h1, Ne.symm h2]
  have hmerge : dmerge [("id", PyVal.str doc_id),
      ("created_at", PyVal.dtstr now)] doc.metadata =
      ("id", PyVal.str doc_id) :: ("created_at", PyVal.dtstr now) ::
        doc.metadata := by
    rw [dmerge_append _ _ hdisj hwf]
    rfl
  refine ⟨?_, rfl, list_documents_reserved_free _⟩
  have hdocs : (add_document st doc_id now doc).1.documents =
      st.documents ++ [(doc_id,
        ⟨doc.content, ("id", PyVal.str doc_id) ::
          ("created_at", PyVal.dtstr now) :: doc.metadata⟩)] := by
    simp only [add_document]
    rw [alInsert_of_not_contains _ hfresh, hmerge]
  rw [list_documents, hdocs, scrollPoints,
    List.take_of_length_le (by simp; omega), List.filterMap_append]
  refine List.mem_append_right _ ?_
  have hread : readDocPoint (doc_id,
      ⟨doc.content, ("id", PyVal.str doc_id) ::
        ("created_at", PyVal.dtstr now) :: doc.metadata⟩) =
      some { id := PyVal.str doc_id, content := doc.content,
             metadata := doc.metadata, created_at := now } := by
    have hfil : dfilterReserved (("id", PyVal.str doc_id) ::
        ("created_at", PyVal.dtstr now) :: doc.metadata) = doc.metadata := by
      rw [dfilterReserved, List.filter_cons_of_neg (by simp),
        List.filter_cons_of_neg (by simp)]
      exact dfilterReserved_eq_self hmid hmca
    have hie : doc_id.isEmpty = false := by
      rw [← Bool.not_eq_true, String.isEmpty_iff]
      exact hne
    have hca_id : ("created_at" : String) ≠ "id" := by decide
    have hid_ca : ("id" : String) ≠ "created_at" := by decide
    simp [readDocPoint, alGet_cons, truthyV, hie, fromisoformatV, hfil,
      hca_id, hid_ca]
  simp [hread]

/-- Witness for C4's amended theorem: a document added to the empty store
with metadata `{"k": "v"}` shows up verbatim in `list_documents`. -/
theorem add_then_list_roundtrip_witness :
    ({ id := PyVal.str "d1", content := "txt",
       metadata := [("k", PyVal.str "v")], created_at := 5 } :
        DocumentRead) ∈
      list_documents (add_document emptyStore "d1" 5
        { content := "txt", metadata := [("k", PyVal.str "v")] }).1 ∧
    (add_document emptyStore "d1" 5
      { content := "txt", metadata := [("k", PyVal.str "v")] }).2 =
      { id := PyVal.str "d1", content := "txt",
        metadata := [("k", PyVal.str "v")], created_at := 5 } :=
  ⟨(add_then_list_roundtrip emptyStore "d1" 5
      { content := "txt", metadata := [("k", PyVal.str "v")] }
      (by decide) rfl (by decide) (by decide) rfl rfl).1,
   (add_then_list_roundtrip emptyStore "d1" 5
      { content := "txt", metadata := [("k", PyVal.str "v")] }
      (by decide) rfl (by decide) (by decide) rfl rfl).2.1⟩

/-- Claim C5 (counterexample): updating the (normally added) stored
document `"d1"` with caller metadata `{"created_at": <time 99>}` stores a
record whose metadata `created_at` is the caller's value `99`, not the
original `5` — the merge puts caller pairs last, so the preserved
timestamp is overridden in the stored payload. -/
theorem update_document_reserved_key_counterexample :
    alGet sampleDocStore.documents "d1" =
      some ⟨"txt", [("id", PyVal.str "d1"), ("created_at", PyVal.dtstr 5),
                    ("k", PyVal.str "v")]⟩ ∧
    alGet (update_document sampleDocStore "d1"
        { content := "new",
          metadata := [("created_at", PyVal.dtstr 99)] }).1.documents
        "d1" =
      some ⟨"new", [("id", PyVal.str "d1"),
                    ("created_at", PyVal.dtstr 99)]⟩ :=
  ⟨rfl, rfl⟩

/-- Claim C5 (amended): `update_document` on an id with no stored
document fails with NotFound; on a stored document whose metadata
`created_at` is a well-formed timestamp, and for caller metadata with
distinct keys containing neither `"id"` nor `"created_at"`, it returns
and stores a record under the original point id whose `created_at`
equals the original document's, while content and metadata take the new
values. -/
theorem update_document_spec (st : Store) (doc_id : String)
    (doc : DocumentCreate) :
    (alGet st.documents doc_id = none →
      update_document st doc_id doc =
        (st, Except.error ("Failed to update document: Document with ID "
          ++ doc_id ++ " not found"))) ∧
    (∀ pay t, alGet st.documents doc_id = some pay →
      alGet pay.metadata "created_at" = some (PyVal.dtstr t) →
      dwf doc.metadata →
      alContains doc.metadata "id" = false →
      alContains doc.metadata "created_at" = false →
      update_document st doc_id doc =
        ({ st with documents := alInsert st.documents doc_id
                                  ⟨doc.content, ("id", PyVal.str doc_id) ::
                                    ("created_at", PyVal.dtstr t) ::
                                      doc.metadata⟩ },
         Except.ok { id := PyVal.str doc_id, content := doc.content,
                     metadata := doc.metadata, created_at := t })) := by
  constructor
  · intro h
    simp only [update_document, h]
  · intro pay t hpay hca hwf hmid hmca
    have hdisj : ∀ kv ∈ doc.metadata,
        alContains [("id", PyVal.str doc_id),
          ("created_at", PyVal.dtstr t)] kv.1 = false := by
      intro kv hkv
      have h1 := (alContains_eq_false_iff _ _).mp hmid kv hkv
      have h2 := (alContains_eq_false_iff _ _).mp hmca kv hkv
      simp [alContains, Ne.symm h1, Ne.symm h2]
    have hmerge : dmerge [("id", PyVal.str doc_id),
        ("created_at", PyVal.dtstr t)] doc.metadata =
        ("id", PyVal.str doc_id) :: ("created_at", PyVal.dtstr t) ::
          doc.metadata := by
      rw [dmerge_append _ _ hdisj hwf]
      rfl
    simp only [update_document, hpay, hca, Option.getD_some, hmerge,
      fromisoformatV]

/-- Witness for C5's amended theorem: an unknown id fails with the
NotFound error; updating `"d1"` with metadata `{"k2": 2}` keeps point id
`"d1"` and the original timestamp `5` while storing the new content and
metadata. -/
theorem update_document_spec_witness :
    update_document sampleDocStore "zzz"
        { content := "c", metadata := [] } =
      (sampleDocStore,
       Except.error
         "Failed to update document: Document with ID zzz not found") ∧
    update_document sampleDocStore "d1"
        { content := "new", metadata := [("k2", PyVal.int 2)] } =
      ({ sampleDocStore with
          documents := alInsert sampleDocStore.documents "d1"
            ⟨"new", [("id", PyVal.str "d1"), ("created_at", PyVal.dtstr 5),
                     ("k2", PyVal.int 2)]⟩ },
       Except.ok { id := PyVal.str "d1", content := "new",
                   metadata := [("k2", PyVal.int 2)], created_at := 5 }) :=
  ⟨(update_document_spec sampleDocStore "zzz"
      { content := "c", metadata := [] }).1 rfl,
   (update_document_spec sampleDocStore "d1"
      { content := "new", metadata := [("k2", PyVal.int 2)] }).2
      ⟨"txt", [("id", PyVal.str "d1"), ("created_at", PyVal.dtstr 5),
               ("k", PyVal.str "v")]⟩ 5 rfl rfl (by decide) rfl rfl⟩

theorem searchNode_ok_some {n : SourceNode} {d : DocumentRead}
    (h : searchNode n = .ok (some d)) :
    d.content = n.text ∧ d.metadata = dfilterReserved n.metadata ∧
    alGet n.metadata "id" = some d.id := by
  unfold searchNode at h
  cases hid : alGet n.metadata "id" with
  | none =>
    rw [hid] at h
    simp at h
  | some did =>
    cases hca : alGet n.metadata "created_at" with
    | none =>
      rw [hid, hca] at h
      simp at h
    | some cav =>
      cases hfi : fromisoformatV cav with
      | none =>
        rw [hid, hca] at h
        simp [hfi] at h
      | some t =>
        rw [hid, hca] at h
        simp [hfi] at h
        subst h
        exact ⟨rfl, rfl, by simp [hid]⟩

theorem collectNodes_ok_mem {ns : List SourceNode}
    {ds : List DocumentRead} (h : collectNodes ns = .ok ds) :
    ∀ d ∈ ds, ∃ n ∈ ns, searchNode n = .ok (some d) := by
  induction ns generalizing ds with
  | nil =>
    rw [collectNodes, Except.ok.injEq] at h
    subst h
    simp
  | cons n rest ih =>
    rw [collectNodes] at h
    split at h
    · exact absurd h (by simp)
    · rename_i hopt hsn
      split at h
      · exact absurd h (by simp)
      · rename_i t hcr
        rw [Except.ok.injEq] at h
        intro d hd
        cases hopt with
        | some d0 =>
          subst h
          rcases List.mem_cons.mp hd with rfl | hd
          · exact ⟨n, List.mem_cons_self n rest, hsn⟩
          · obtain ⟨n', hn', hsn'⟩ := ih hcr d hd
            exact ⟨n', List.mem_cons_of_mem n hn', hsn'⟩
        | none =>
          subst h
          obtain ⟨n', hn', hsn'⟩ := ih hcr d hd
          exact ⟨n', List.mem_cons_of_mem n hn', hsn'⟩

/-- Claim C7: `search_similar_documents` queries the engine with the top-k
bound fixed at 5; a response without source nodes yields the empty
sequence; and every record it returns is reconstructed from one of the
response's nodes — content from the node's text, metadata from the node's
metadata with the reserved keys `"id"`/`"created_at"` stripped, id from
the node's `"id"` metadata value (chat_service.py:351-373). -/
theorem search_similar_documents_spec
    (engine : Nat → String → Option (List SourceNode)) (query : String) :
    searchTopK = 5 ∧
    search_similar_documents engine query =
      (match engine 5 query with
       | none => .ok []
       | some nodes => collectNodes nodes) ∧
    (engine 5 query = none →
      search_similar_documents engine query = .ok []) ∧
    (∀ docs, search_similar_documents engine query = .ok docs →
      ∀ d ∈ docs, ∃ nodes, engine 5 query = some nodes ∧
        ∃ n ∈ nodes, d.content = n.text ∧
          d.metadata = dfilterReserved n.metadata ∧
          alGet n.metadata "id" = some d.id ∧
          alContains d.metadata "id" = false ∧
          alContains d.metadata "created_at" = false) := by
  refine ⟨rfl, rfl, ?_, ?_⟩
  · intro h
    rw [search_similar_documents, searchTopK, h]
  · intro docs hdocs d hd
    rw [search_similar_documents, searchTopK] at hdocs
    cases heng : engine 5 query with
    | none =>
      rw [heng, Except.ok.injEq] at hdocs
      subst hdocs
      exact absurd hd (by simp)
    | some nodes =>
      rw [heng] at hdocs
      obtain ⟨n, hn, hsn⟩ := collectNodes_ok_mem hdocs d hd
      obtain ⟨h1, h2, h3⟩ := searchNode_ok_some hsn
      refine ⟨nodes, rfl, n, hn, h1, h2, h3, ?_, ?_⟩
      · rw [h2]; exact dfilterReserved_no_id _
      · rw [h2]; exact dfilterReserved_no_created_at _

/-- Witness for C7 at two concrete engines: one whose response has no
source nodes (empty result), and one returning the single node `node1`,
whose reconstruction `docR1` strips the reserved keys. -/
theorem search_similar_documents_spec_witness :
    search_similar_documents engNone "q" = .ok [] ∧
    (∃ nodes, engOne 5 "q" = some nodes ∧
      ∃ n ∈ nodes, docR1.content = n.text ∧
        docR1.metadata = dfilterReserved n.metadata ∧
        alGet n.metadata "id" = some docR1.id ∧
        alContains docR1.metadata "id" = false ∧
        alContains docR1.metadata "created_at" = false) :=
  ⟨(search_similar_documents_spec engNone "q").2.2.1 rfl,
   (search_similar_documents_spec engOne "q").2.2.2 [docR1] rfl docR1
     (List.mem_singleton_self docR1)⟩
